import Mathlib

/-!
Verification of the Bee Store backend (src/main.py) against its
natural-language specification.

The development shallowly embeds the two request handlers the claims are
about (`list_products`, `seed_products`, `create_order`) together with the
document-store state they act on.  Parts of the repository that are only
imported by `main.py` and are not present in the source tree
(`database.py`: `db`, `create_document`, `get_documents`; `schemas.py`:
the `Order` input schema) are modelled from the specification and marked
as such in their doc comments.
-/

namespace BeeStore

/-- A BSON ObjectId, carried as its 24-character lowercase-hex string form
(`str(ObjectId(...))` in Python returns exactly this string). -/
structure ObjectId where
  hex : String
deriving DecidableEq, Repr

/-- A hexadecimal digit, as accepted by `bson.ObjectId`. -/
def isHexDigit (c : Char) : Bool :=
  c.isDigit || (('a' ≤ c) && (c ≤ 'f')) || (('A' ≤ c) && (c ≤ 'F'))

/-- Validity of a string as a BSON ObjectId: `bson.ObjectId(s)` succeeds on a
string exactly when it is 24 hexadecimal characters. -/
def isValidObjectId (s : String) : Bool :=
  s.length == 24 && s.data.all isHexDigit

/-- The `ObjectId(s)` constructor: returns the id on a well-formed string and
fails (raises `bson.errors.InvalidId`) otherwise. -/
def parseObjectId (s : String) : Option ObjectId :=
  if isValidObjectId s then some ⟨s⟩ else none

/-- A value stored under the `_id` key of a document: either a genuine
ObjectId, or an arbitrary other value (modelled as a string), matching the
`isinstance(d.get("_id"), ObjectId)` dynamic check in `list_products`. -/
inductive BVal where
  | oid (o : ObjectId)
  | str (s : String)
deriving DecidableEq, Repr

/-- A document of the `beeproduct` collection: the Product fields of spec §3
plus the store-held `_id`, which may be absent (`d.get("_id")` is `None`) or a
non-ObjectId value, as `list_products` allows for. -/
structure ProductDoc where
  id : Option BVal
  name : String
  species : String
  description : String
  price : Rat
  image : String
  in_stock : Bool
deriving DecidableEq, Repr

/-- A Product payload without an id, as inserted by `seed_products`. -/
structure ProductIn where
  name : String
  species : String
  description : String
  price : Rat
  image : String
  in_stock : Bool
deriving DecidableEq, Repr

/-- One entry of an order's `items` sequence (spec §3):
`{product_id: string, quantity: integer}`. -/
structure OrderItem where
  product_id : String
  quantity : Int
deriving DecidableEq, Repr

/-- The order payload received by `create_order`.  The spec notes the source
schema is opaque beyond `items` ("implementation may add customer/contact
fields"); `customer` stands for those remaining fields. -/
structure OrderIn where
  items : List OrderItem
  customer : String
deriving DecidableEq, Repr

/-- A document of the `order` collection: the order payload plus its
store-assigned `_id`. -/
structure OrderDoc where
  id : ObjectId
  items : List OrderItem
  customer : String
deriving DecidableEq, Repr

/-- The document store's state: the two persisted collections of spec §6,
`beeproduct` and `order`. -/
structure Store where
  beeproduct : List ProductDoc
  order : List OrderDoc
deriving DecidableEq, Repr

/-- The global database handle `db` from `database.py`: `none` when the store
is not configured (the `db is None` checks in `main.py`). -/
abbrev DB := Option Store

/-- A Python exception, as far as `create_order` can observe one inside its
`try` block: the `TypeError` from subscripting a `None` database handle, the
`bson.errors.InvalidId` from `ObjectId(...)` on a malformed string, and
`fastapi.HTTPException` — which subclasses `Exception` and is therefore also
caught by a bare `except Exception`. -/
inductive PyExc where
  | typeError
  | invalidId (s : String)
  | httpException (status : Nat) (detail : String)
deriving DecidableEq, Repr

/-- An HTTP error response produced by an uncaught `HTTPException`:
its status code and its human-readable `detail` message. -/
structure HTTPError where
  status : Nat
  detail : String
deriving DecidableEq, Repr

/-- Modelled from the spec: `find_one(collection, filter) -> document|absent`
of the Document Store Adapter (§2); `database.py` is not in the source tree.
With the filter `{"_id": oid}` it returns the first document whose `_id`
equals the given ObjectId, or absence. -/
def find_one_product (docs : List ProductDoc) (o : ObjectId) : Option ProductDoc :=
  docs.find? (fun d => d.id == some (BVal.oid o))

/-- Modelled from the spec: `get_documents("beeproduct")` from `database.py`
(not in the source tree); per §2 and §4.1 it is `find` with an empty filter,
returning the full sequence of documents currently in the collection, with no
side effect. -/
def get_documents_beeproduct (st : Store) : List ProductDoc :=
  st.beeproduct

/-- Modelled from the spec: `create_document("beeproduct", p)` from
`database.py` (not in the source tree); per §2 the adapter's
`insert(collection, document) -> id` persists the document with a fresh
store-assigned `_id` and returns that id.  An individual insert may also fail
(§4.1 says seed "swallows" such failures); `ok = false` models the failing
call, which leaves the collection unchanged.  `insertedDoc` is the persisted
document: the payload together with its fresh `_id`. -/
def insertedDoc (p : ProductIn) (fresh : ObjectId) : ProductDoc :=
  { id := some (BVal.oid fresh), name := p.name, species := p.species,
    description := p.description, price := p.price, image := p.image,
    in_stock := p.in_stock }

/-- Modelled from the spec: the fallible insert itself;
`create_document_beeproduct st p fresh ok` persists `p` under the fresh id
when `ok` and fails (returns nothing, collection untouched) otherwise. -/
def create_document_beeproduct (st : Store) (p : ProductIn) (fresh : ObjectId)
    (ok : Bool) : Option (String × Store) :=
  if ok then
    some (fresh.hex, { st with beeproduct := st.beeproduct ++ [insertedDoc p fresh] })
  else none

/-- Modelled from the spec: `create_document("order", order)` from
`database.py` (not in the source tree); per §2 it persists the order document
with a fresh store-assigned id and returns that id. -/
def create_document_order (st : Store) (o : OrderIn) (fresh : ObjectId) :
    String × Store :=
  (fresh.hex, { st with order := st.order ++ [OrderDoc.mk fresh o.items o.customer] })

/-- The `_id` normalization loop of `list_products` (src/main.py lines 73-75):
`if isinstance(d.get("_id"), ObjectId): d["_id"] = str(d["_id"])`. -/
def normalizeDoc (d : ProductDoc) : ProductDoc :=
  match d.id with
  | some (BVal.oid o) => { d with id := some (BVal.str o.hex) }
  | _ => d

/-- The `GET /api/products` handler `list_products` (src/main.py lines 70-76):
fetches every `beeproduct` document, normalizes ObjectId `_id`s to strings,
and returns the list; the store itself is returned unchanged. -/
def list_products (st : Store) : List ProductDoc × Store :=
  ((get_documents_beeproduct st).map normalizeDoc, st)

/-- The first hardcoded default product of `seed_products`
(src/main.py lines 96-103). -/
def default0 : ProductIn :=
  { name := "Italian Honey Bees (Nucleus)",
    species := "Apis mellifera ligustica",
    description := "Gentle temperament, great honey production. 5-frame nuc with marked queen.",
    price := 185,
    image := "https://images.unsplash.com/photo-1506703719100-a0f3a48c0f86?q=80&w=1200&auto=format&fit=crop",
    in_stock := true }

/-- The second hardcoded default product (src/main.py lines 104-111). -/
def default1 : ProductIn :=
  { name := "Carniolan Package Bees",
    species := "Apis mellifera carnica",
    description := "Fast spring buildup and overwintering success. 3 lb package with mated queen.",
    price := 165,
    image := "https://images.unsplash.com/photo-1470115636492-6d2b56f9146e?q=80&w=1200&auto=format&fit=crop",
    in_stock := true }

/-- The third hardcoded default product (src/main.py lines 112-119). -/
def default2 : ProductIn :=
  { name := "Saskatraz Queens",
    species := "Apis mellifera",
    description := "Selected for mite tolerance and productivity. Marked, mated queen ready to introduce.",
    price := 42,
    image := "https://images.unsplash.com/photo-1510877073473-6d4545e9c7e1?q=80&w=1200&auto=format&fit=crop",
    in_stock := true }

/-- The fourth hardcoded default product (src/main.py lines 120-127). -/
def default3 : ProductIn :=
  { name := "Native Bumblebee Colony",
    species := "Bombus impatiens",
    description := "Excellent greenhouse pollinators. Complete colony with queen and workers.",
    price := 299,
    image := "https://images.unsplash.com/photo-1461354464878-ad92f492a5a0?q=80&w=1200&auto=format&fit=crop",
    in_stock := false }

/-- The fixed `defaults` list of `seed_products` (src/main.py lines 95-128). -/
def defaults : List ProductIn :=
  [default0, default1, default2, default3]

/-- The response of `seed_products`: either the 500 `HTTPException` raised
when `db is None`, or a `{message, count}` JSON body. -/
inductive SeedResponse where
  | storeError (status : Nat) (detail : String)
  | msg (message : String) (count : Nat)
deriving DecidableEq, Repr

/-- The seeding loop of `seed_products` (src/main.py lines 130-137):
`inserted` accumulates the count, `i` indexes the insert attempts so the
oracles `ok` (does attempt `i` succeed?) and `fresh` (the id the store
assigns) can refer to them.  A failing insert is swallowed
(`except Exception: pass`) and the loop continues with the next product. -/
def seedLoop (ok : Nat → Bool) (fresh : Nat → ObjectId) :
    Store → Nat → Nat → List ProductIn → Nat × Store
  | st, inserted, _, [] => (inserted, st)
  | st, inserted, i, p :: rest =>
    match create_document_beeproduct st p (fresh i) (ok i) with
    | some (_, st') => seedLoop ok fresh st' (inserted + 1) (i + 1) rest
    | none => seedLoop ok fresh st inserted (i + 1) rest

/-- The `POST /api/seed` handler `seed_products` (src/main.py lines 85-139):
a 500 error if `db` is `None`; the "already seeded" early return when
`count_documents({}) > 0`; otherwise the best-effort insertion of the four
default products, returning the number of successful inserts. -/
def seed_products (db : DB) (ok : Nat → Bool) (fresh : Nat → ObjectId) :
    SeedResponse × DB :=
  match db with
  | none => (SeedResponse.storeError 500 "Database not configured", none)
  | some st =>
    let count := st.beeproduct.length
    if count > 0 then
      (SeedResponse.msg "Products already seeded" count, some st)
    else
      let r := seedLoop ok fresh st 0 0 defaults
      (SeedResponse.msg "Seeded products" r.1, some r.2)

/-- The body of the `try` block in `create_order` (src/main.py lines 148-151):
`db["beeproduct"]` raises `TypeError` when `db` is `None`;
`ObjectId(item.product_id)` raises `InvalidId` on a malformed id; a `None`
result of `find_one` raises `HTTPException(400, "Product not found: <id>")` —
note this raise sits inside the `try`. -/
def orderItemTry (db : DB) (it : OrderItem) : Except PyExc Unit :=
  match db with
  | none => Except.error PyExc.typeError
  | some st =>
    match parseObjectId it.product_id with
    | none => Except.error (PyExc.invalidId it.product_id)
    | some o =>
      match find_one_product st.beeproduct o with
      | none => Except.error
          (PyExc.httpException 400 ("Product not found: " ++ it.product_id))
      | some _ => Except.ok ()

/-- One iteration of the per-item `try`/`except` of `create_order`
(src/main.py lines 148-153): the bare `except Exception` catches every
exception the body raised — including the `HTTPException` carrying
"Product not found" — and raises
`HTTPException(400, "Invalid product id: <id>")` instead. -/
def orderItemCheck (db : DB) (it : OrderItem) : Except HTTPError Unit :=
  match orderItemTry db it with
  | Except.ok _ => Except.ok ()
  | Except.error _ =>
      Except.error ⟨400, "Invalid product id: " ++ it.product_id⟩

/-- The `for item in order.items` loop of `create_order` (src/main.py lines
147-153): items are checked in sequence order and the first uncaught
`HTTPException` aborts the handler. -/
def validateItems (db : DB) : List OrderItem → Option HTTPError
  | [] => none
  | it :: rest =>
    match orderItemCheck db it with
    | Except.error e => some e
    | Except.ok _ => validateItems db rest

/-- The response of the `POST /api/orders` endpoint: a schema-validation
rejection (issued by the framework before the handler runs), an HTTP error
from an uncaught `HTTPException`, or the 201 `{id}` body. -/
inductive OrderResponse where
  | validationError
  | httpError (status : Nat) (detail : String)
  | created (id : String)
deriving DecidableEq, Repr

/-- The `POST /api/orders` handler `create_order` (src/main.py lines 144-156):
validate every item in order, then perform the single insert into the `order`
collection.  `fresh` is the id the store assigns to the inserted order.  When
`db` is `None` and the loop is passed (only possible with an empty `items`),
the insert fails against the unconfigured store, surfaced per spec §7 as a
500 `StoreUnavailable`. -/
def create_order (db : DB) (fresh : ObjectId) (o : OrderIn) :
    OrderResponse × DB :=
  match validateItems db o.items with
  | some e => (OrderResponse.httpError e.status e.detail, db)
  | none =>
    match db with
    | none => (OrderResponse.httpError 500 "Database not configured", none)
    | some st =>
      let r := create_document_order st o fresh
      (OrderResponse.created r.1, some r.2)

/-- Modelled from the spec: the `Order` input schema from `schemas.py` (not in
the source tree).  Per §3 and §4.2, `items` is a non-empty sequence and each
quantity is an integer ≥ 1; a payload violating this is rejected with a
`ValidationError` before the handler runs. -/
def orderSchemaValid (o : OrderIn) : Bool :=
  !o.items.isEmpty && o.items.all (fun it => 1 ≤ it.quantity)

/-- The full `POST /api/orders` endpoint: framework-level schema validation of
the payload against the `Order` schema, then the `create_order` handler. -/
def create_order_endpoint (db : DB) (fresh : ObjectId) (o : OrderIn) :
    OrderResponse × DB :=
  if orderSchemaValid o then create_order db fresh o
  else (OrderResponse.validationError, db)

/-! Concrete fixtures used by witnesses and counterexamples. -/

/-- A well-formed (24 hex characters) ObjectId. -/
def oidA : ObjectId := ⟨"aaaaaaaaaaaaaaaaaaaaaaaa"⟩

/-- A second well-formed ObjectId, used as the store-assigned fresh id. -/
def oidB : ObjectId := ⟨"bbbbbbbbbbbbbbbbbbbbbbbb"⟩

/-- A sample product document stored under the id `oidA`. -/
def prodA : ProductDoc :=
  { id := some (BVal.oid oidA), name := "Test Bees", species := "Apis mellifera",
    description := "A test colony.", price := 10, image := "http://example/img",
    in_stock := true }

/-- A store holding the single product `prodA` and no orders. -/
def stA : Store := ⟨[prodA], []⟩

/-- A configured but empty store. -/
def emptyStore : Store := ⟨[], []⟩

/-! Helper lemmas shared by the claim theorems. -/

/-- An item whose product id is not a valid ObjectId always fails its check
with the "Invalid product id" error, whatever the store state: both the
`TypeError` (db `None`) and the `InvalidId` parse failure land in the same
`except Exception`. -/
theorem orderItemCheck_of_invalid (db : DB) (it : OrderItem)
    (h : isValidObjectId it.product_id = false) :
    orderItemCheck db it
      = Except.error ⟨400, "Invalid product id: " ++ it.product_id⟩ := by
  cases db with
  | none => rfl
  | some st => simp [orderItemCheck, orderItemTry, parseObjectId, h]

/-- The per-item validation loop succeeds exactly when every item's check
succeeds. -/
theorem validateItems_eq_none_iff (db : DB) (l : List OrderItem) :
    validateItems db l = none
      ↔ ∀ it ∈ l, orderItemCheck db it = Except.ok () := by
  induction l with
  | nil => simp [validateItems]
  | cons it rest ih =>
    cases hc : orderItemCheck db it with
    | error e =>
      simp only [validateItems, hc]
      constructor
      · intro h; cases h
      · intro h
        have := h it (List.mem_cons_self it rest)
        rw [hc] at this; cases this
    | ok u =>
      cases u
      simp only [validateItems, hc]
      rw [ih]
      constructor
      · intro h x hx
        rcases List.mem_cons.mp hx with rfl | hx
        · exact hc
        · exact h x hx
      · intro h x hx
        exact h x (List.mem_cons_of_mem _ hx)

/-- Items that all pass their check are skipped over by the validation
loop. -/
theorem validateItems_append_of_ok (db : DB) (pre l : List OrderItem)
    (h : ∀ it ∈ pre, orderItemCheck db it = Except.ok ()) :
    validateItems db (pre ++ l) = validateItems db l := by
  induction pre with
  | nil => rfl
  | cons it rest ih =>
    have hit := h it (List.mem_cons_self it rest)
    simp only [List.cons_append, validateItems, hit]
    exact ih (fun x hx => h x (List.mem_cons_of_mem _ hx))

/-! Claim theorems. -/

/-- C1: evaluation of the code at the failing input — a syntactically valid
product id (24 hex characters) that matches no product in the store.  The
endpoint responds 400 "Invalid product id: ...", not the claimed 400
"Product not found: ...": as the second conjunct shows, the body of the
`try` block does raise the `HTTPException` carrying "Product not found", but
the bare `except Exception` of src/main.py line 152 catches it (FastAPI's
`HTTPException` subclasses `Exception`) and replaces it with the
`InvalidProductId` error, so the "Product not found" message is
unreachable. -/
theorem C1_product_not_found_replaced :
    create_order_endpoint (some emptyStore) oidB
        ⟨[⟨"aaaaaaaaaaaaaaaaaaaaaaaa", 1⟩], "Alice"⟩
      = (OrderResponse.httpError 400
          "Invalid product id: aaaaaaaaaaaaaaaaaaaaaaaa", some emptyStore) ∧
    orderItemTry (some emptyStore) ⟨"aaaaaaaaaaaaaaaaaaaaaaaa", 1⟩
      = Except.error (PyExc.httpException 400
          "Product not found: aaaaaaaaaaaaaaaaaaaaaaaa") := by
  exact ⟨rfl, rfl⟩

/-- C5: an order whose `items` sequence is empty is rejected with a
`ValidationError`, whatever the remaining field values, and nothing is
persisted (the store is unchanged). -/
theorem C5_empty_items_validation_error (db : DB) (fresh : ObjectId)
    (o : OrderIn) (h : o.items = []) :
    create_order_endpoint db fresh o = (OrderResponse.validationError, db) := by
  simp [create_order_endpoint, orderSchemaValid, h]

theorem C5_empty_items_validation_error_witness :
    OrderIn.items ⟨[], "Alice"⟩ = [] ∧
    create_order_endpoint (some emptyStore) oidB ⟨[], "Alice"⟩
      = (OrderResponse.validationError, some emptyStore) :=
  ⟨rfl, C5_empty_items_validation_error (some emptyStore) oidB ⟨[], "Alice"⟩ rfl⟩

/-- C7: with the database handle unconfigured (`db is None`), `seed_products`
fails with the 500 "Database not configured" error and the store is left
exactly as it was (no write occurs), for every insert-outcome and fresh-id
oracle. -/
theorem C7_seed_unconfigured_store (ok : Nat → Bool) (fresh : Nat → ObjectId) :
    seed_products none ok fresh
      = (SeedResponse.storeError 500 "Database not configured", none) := rfl

/-- C10: with the database handle unconfigured, `create_order` on any
non-empty `items` sequence responds 400 "Invalid product id: <id>" for the
first item — not a 500 store-unavailable error — because the `TypeError`
raised by subscripting the `None` handle is caught by the same per-item
`except Exception` that catches id-parsing failures. -/
theorem C10_db_none_first_item_invalid (fresh : ObjectId) (it : OrderItem)
    (rest : List OrderItem) (c : String) :
    create_order none fresh ⟨it :: rest, c⟩
      = (OrderResponse.httpError 400
          ("Invalid product id: " ++ it.product_id), none) := rfl

/-- C3: when the product collection already holds at least one document,
`seed_products` returns immediately with the message "Products already
seeded" and the current count, and performs no writes: the store comes back
unchanged. -/
theorem C3_seed_already_seeded (st : Store) (ok : Nat → Bool)
    (fresh : Nat → ObjectId) (h : 0 < st.beeproduct.length) :
    seed_products (some st) ok fresh
      = (SeedResponse.msg "Products already seeded" st.beeproduct.length,
         some st) := by
  simp [seed_products, h]

theorem C3_seed_already_seeded_witness :
    0 < stA.beeproduct.length ∧
    seed_products (some stA) (fun _ => true) (fun _ => oidB)
      = (SeedResponse.msg "Products already seeded" 1, some stA) :=
  ⟨by decide,
   C3_seed_already_seeded stA (fun _ => true) (fun _ => oidB) (by decide)⟩

/-- C6: `list_products` returns every document of the product collection in
order — the map of the `_id` normalization over the collection — and leaves
the store unchanged.  Normalization turns an ObjectId `_id` into its string
form and leaves every other field (and every non-ObjectId `_id`) alone, so
no returned document carries an ObjectId-valued `_id`. -/
theorem C6_list_products_normalized (st : Store) :
    (list_products st).2 = st ∧
    (list_products st).1 = st.beeproduct.map normalizeDoc ∧
    (list_products st).1.length = st.beeproduct.length ∧
    (∀ d ∈ st.beeproduct, ∀ o : ObjectId, d.id = some (BVal.oid o) →
        normalizeDoc d = { d with id := some (BVal.str o.hex) }) ∧
    (∀ d ∈ st.beeproduct, (∀ o : ObjectId, d.id ≠ some (BVal.oid o)) →
        normalizeDoc d = d) ∧
    (∀ d ∈ (list_products st).1, ∀ o : ObjectId, d.id ≠ some (BVal.oid o)) := by
  refine ⟨rfl, rfl, by simp [list_products, get_documents_beeproduct], ?_, ?_, ?_⟩
  · intro d _ o hid
    simp [normalizeDoc, hid]
  · intro d _ hno
    cases hid : d.id with
    | none => simp [normalizeDoc, hid]
    | some v =>
      cases v with
      | oid o => exact absurd hid (hno o)
      | str s => simp [normalizeDoc, hid]
  · intro d hd o
    simp only [list_products, get_documents_beeproduct, List.mem_map] at hd
    rcases hd with ⟨d1, _, rfl⟩
    cases hid : d1.id with
    | none => simp [normalizeDoc, hid]
    | some v =>
      cases v with
      | oid o1 => simp [normalizeDoc, hid]
      | str s => simp [normalizeDoc, hid]

theorem C6_list_products_normalized_witness :
    (list_products stA).2 = stA ∧
    (list_products stA).1
      = [{ prodA with id := some (BVal.str "aaaaaaaaaaaaaaaaaaaaaaaa") }] := by
  have h := C6_list_products_normalized stA
  exact ⟨h.1, h.2.1.trans (by decide)⟩

/-- C2: whenever some item of the order fails its per-item check (or the
`items` sequence is empty), the order endpoint responds with an error, never
a 201 `created`, and the store is unchanged: the single insert into the
`order` collection sits after the whole validation loop, so no partial order
is persisted. -/
theorem C2_error_no_persist (db : DB) (fresh : ObjectId) (o : OrderIn)
    (h : o.items = []
      ∨ ∃ it ∈ o.items, ∃ e, orderItemCheck db it = Except.error e) :
    (∀ i, (create_order_endpoint db fresh o).1 ≠ OrderResponse.created i) ∧
    (create_order_endpoint db fresh o).2 = db := by
  cases hs : orderSchemaValid o with
  | false => simp [create_order_endpoint, hs]
  | true =>
    have hfail : validateItems db o.items ≠ none := by
      rcases h with hemp | ⟨it, hmem, e, he⟩
      · rw [orderSchemaValid, hemp] at hs
        simp at hs
      · intro hn
        have hok := (validateItems_eq_none_iff db o.items).mp hn it hmem
        rw [hok] at he
        cases he
    cases hv : validateItems db o.items with
    | none => exact absurd hv hfail
    | some e =>
      constructor
      · intro i
        simp [create_order_endpoint, hs, create_order, hv]
      · simp [create_order_endpoint, hs, create_order, hv]

theorem C2_error_no_persist_witness :
    (∀ i, (create_order_endpoint (some stA) oidB
        ⟨[⟨"aaaaaaaaaaaaaaaaaaaaaaaa", 1⟩, ⟨"xx", 1⟩], "Bob"⟩).1
      ≠ OrderResponse.created i) ∧
    (create_order_endpoint (some stA) oidB
        ⟨[⟨"aaaaaaaaaaaaaaaaaaaaaaaa", 1⟩, ⟨"xx", 1⟩], "Bob"⟩).2
      = some stA :=
  C2_error_no_persist (some stA) oidB
    ⟨[⟨"aaaaaaaaaaaaaaaaaaaaaaaa", 1⟩, ⟨"xx", 1⟩], "Bob"⟩
    (Or.inr ⟨⟨"xx", 1⟩, by simp, ⟨400, "Invalid product id: xx"⟩, rfl⟩)

/-- C8: item validation proceeds in sequence order and short-circuits on the
first failure: if every item of the prefix passes its check and the next
item's product id is not parseable as an ObjectId, `create_order` fails with
400 "Invalid product id: <that id>" and the store is unchanged, whatever
items follow — the result does not depend on `rest`, so no later item is
examined. -/
theorem C8_first_invalid_short_circuits (db : DB) (fresh : ObjectId)
    (c : String) (pre : List OrderItem) (bad : OrderItem)
    (rest : List OrderItem)
    (hpre : ∀ it ∈ pre, orderItemCheck db it = Except.ok ())
    (hbad : isValidObjectId bad.product_id = false) :
    create_order db fresh ⟨pre ++ bad :: rest, c⟩
      = (OrderResponse.httpError 400
          ("Invalid product id: " ++ bad.product_id), db) := by
  have h1 : validateItems db (pre ++ bad :: rest)
      = validateItems db (bad :: rest) :=
    validateItems_append_of_ok db pre _ hpre
  have h2 : orderItemCheck db bad
      = Except.error ⟨400, "Invalid product id: " ++ bad.product_id⟩ :=
    orderItemCheck_of_invalid db bad hbad
  have h3 : validateItems db (bad :: rest)
      = some ⟨400, "Invalid product id: " ++ bad.product_id⟩ := by
    simp only [validateItems, h2]
  unfold create_order
  rw [show (OrderIn.mk (pre ++ bad :: rest) c).items
        = pre ++ bad :: rest from rfl, h1, h3]

theorem C8_first_invalid_short_circuits_witness :
    (∀ it ∈ [(⟨"aaaaaaaaaaaaaaaaaaaaaaaa", 1⟩ : OrderItem)],
        orderItemCheck (some stA) it = Except.ok ()) ∧
    isValidObjectId "zzz" = false ∧
    create_order (some stA) oidB
        ⟨[⟨"aaaaaaaaaaaaaaaaaaaaaaaa", 1⟩, ⟨"zzz", 1⟩, ⟨"later", 2⟩], "Bob"⟩
      = (OrderResponse.httpError 400 "Invalid product id: zzz", some stA) := by
  refine ⟨?_, rfl, ?_⟩
  · intro it hit
    rw [List.mem_singleton.mp hit]
    rfl
  · exact C8_first_invalid_short_circuits (some stA) oidB "Bob"
      [⟨"aaaaaaaaaaaaaaaaaaaaaaaa", 1⟩] ⟨"zzz", 1⟩ [⟨"later", 2⟩]
      (fun it hit => by rw [List.mem_singleton.mp hit]; rfl) rfl

/-- C9: a successful order creation happens against a configured store and
appends exactly one document — the order under its fresh id — to the `order`
collection, leaving the product collection untouched, so `list_products`
returns the same products before and after. -/
theorem C9_success_inserts_one_order (db : DB) (fresh : ObjectId) (o : OrderIn)
    (i : String)
    (h : (create_order_endpoint db fresh o).1 = OrderResponse.created i) :
    ∃ st : Store, db = some st ∧
      (create_order_endpoint db fresh o).2
        = some { st with order := st.order ++ [OrderDoc.mk fresh o.items o.customer] } ∧
      ({ st with order := st.order ++ [OrderDoc.mk fresh o.items o.customer] } : Store).beeproduct
        = st.beeproduct ∧
      (st.order ++ [OrderDoc.mk fresh o.items o.customer]).length = st.order.length + 1 ∧
      (list_products { st with order := st.order ++ [OrderDoc.mk fresh o.items o.customer] }).1
        = (list_products st).1 := by
  unfold create_order_endpoint create_order at h ⊢
  cases hs : orderSchemaValid o with
  | false => rw [hs] at h; simp at h
  | true =>
    rw [hs] at h
    simp only [eq_self_iff_true, if_true] at h
    cases hv : validateItems db o.items with
    | some e => rw [hv] at h; simp at h
    | none =>
      rw [hv] at h
      cases db with
      | none => simp at h
      | some st => exact ⟨st, rfl, rfl, rfl, by simp, rfl⟩

theorem C9_success_inserts_one_order_witness :
    (create_order_endpoint (some stA) oidB
        ⟨[⟨"aaaaaaaaaaaaaaaaaaaaaaaa", 1⟩], "Carol"⟩).1
      = OrderResponse.created "bbbbbbbbbbbbbbbbbbbbbbbb" ∧
    ∃ st : Store, some stA = some st ∧
      (create_order_endpoint (some stA) oidB
          ⟨[⟨"aaaaaaaaaaaaaaaaaaaaaaaa", 1⟩], "Carol"⟩).2
        = some { st with order :=
            st.order ++ [OrderDoc.mk oidB [⟨"aaaaaaaaaaaaaaaaaaaaaaaa", 1⟩] "Carol"] } ∧
      ({ st with order :=
            st.order ++ [OrderDoc.mk oidB [⟨"aaaaaaaaaaaaaaaaaaaaaaaa", 1⟩] "Carol"] } : Store).beeproduct
        = st.beeproduct ∧
      (st.order ++ [OrderDoc.mk oidB [⟨"aaaaaaaaaaaaaaaaaaaaaaaa", 1⟩] "Carol"]).length
        = st.order.length + 1 ∧
      (list_products { st with order :=
            st.order ++ [OrderDoc.mk oidB [⟨"aaaaaaaaaaaaaaaaaaaaaaaa", 1⟩] "Carol"] }).1
        = (list_products st).1 :=
  ⟨rfl, C9_success_inserts_one_order (some stA) oidB
    ⟨[⟨"aaaaaaaaaaaaaaaaaaaaaaaa", 1⟩], "Carol"⟩ "bbbbbbbbbbbbbbbbbbbbbbbb" rfl⟩

/-- C4: when the product collection is empty, `seed_products` attempts the
four hardcoded default products one at a time: the collection receives
exactly the successfully inserted defaults, in order, each under its fresh
id; a failing insert is swallowed without aborting the remaining attempts;
and the returned count is the number of successful insertions — 4 when every
insert succeeds.  The `order` collection is untouched. -/
theorem C4_seed_empty_best_effort (st : Store) (ok : Nat → Bool)
    (fresh : Nat → ObjectId) (h : st.beeproduct = []) :
    seed_products (some st) ok fresh
      = (SeedResponse.msg "Seeded products"
           ((if ok 0 then 1 else 0) + (if ok 1 then 1 else 0)
             + (if ok 2 then 1 else 0) + (if ok 3 then 1 else 0)),
         some (Store.mk
           ((if ok 0 then [insertedDoc default0 (fresh 0)] else [])
             ++ (if ok 1 then [insertedDoc default1 (fresh 1)] else [])
             ++ (if ok 2 then [insertedDoc default2 (fresh 2)] else [])
             ++ (if ok 3 then [insertedDoc default3 (fresh 3)] else []))
           st.order)) := by
  obtain ⟨bp, ord⟩ := st
  have hbp : bp = [] := h
  subst hbp
  cases h0 : ok 0 <;> cases h1 : ok 1 <;> cases h2 : ok 2 <;> cases h3 : ok 3 <;>
    simp [seed_products, seedLoop, defaults, create_document_beeproduct,
      h0, h1, h2, h3]

theorem C4_seed_empty_best_effort_witness :
    emptyStore.beeproduct = [] ∧
    seed_products (some emptyStore) (fun _ => true) (fun _ => oidB)
      = (SeedResponse.msg "Seeded products" 4,
         some (Store.mk
           [insertedDoc default0 oidB, insertedDoc default1 oidB,
            insertedDoc default2 oidB, insertedDoc default3 oidB]
           [])) := by
  refine ⟨rfl, ?_⟩
  have h := C4_seed_empty_best_effort emptyStore (fun _ => true) (fun _ => oidB) rfl
  simpa using h

end BeeStore
